import Mathlib

/-!
Verification of the connection-registry logic of `Suds2Library`
(`src/Suds2Library/clientmanagement.py`).

The library keeps a registry (`ConnectionCache`) of opaque SOAP client
handles, keyed by a 1-based sequential index and an optional alias, with at
most one "current" entry.  The registry itself is not shipped under `src/`,
so its operations (`register`, `switch`, `get_connection`, `current_index`,
`empty_cache`) are modelled from the spec's registry contract; the keyword
methods (`create_soap_client`, `switch_soap_client`, `close_connection`,
`close_all_connections`, `_get_url`) are translated from the source.

Client handles are opaque: we model them by a type `α` with decidable
equality (Python compares handles by object identity).  The sentinel
`_no_current` is modelled as `none`; registry slots therefore hold
`Option α` values and the current selection is an `Option α`.

External collaborators (the filesystem check `os.path.isfile`, the stdlib
`pathname2url`, and the suds `Client` factory, which is the only step that
touches the network) are an explicit environment `Env`.  Each call of the
`Client` factory is recorded as an `Event`, so "no client was constructed
and no network access was attempted" is "the event trace is empty".
-/

namespace Suds2Library

/-- Decidable equality of call results (not provided by the library for
`Except`). -/
instance {ε α : Type} [DecidableEq ε] [DecidableEq α] : DecidableEq (Except ε α) :=
  fun a b =>
    match a, b with
    | .ok x, .ok y =>
      match decEq x y with
      | isTrue h => isTrue (by rw [h])
      | isFalse h => isFalse (by intro hh; cases hh; exact h rfl)
    | .error x, .error y =>
      match decEq x y with
      | isTrue h => isTrue (by rw [h])
      | isFalse h => isFalse (by intro hh; cases hh; exact h rfl)
    | .ok _, .error _ => isFalse (by intro hh; cases hh)
    | .error _, .ok _ => isFalse (by intro hh; cases hh)

/-- Namespace/location pair accumulated for the suds `ImportDoctor`
(`self._imports`; only `ns` and `location` are read by this file). -/
structure WsdlImport where
  ns : String
  location : String
deriving DecidableEq

/-- Modelled from the spec: the external transport factory
(`self._get_transport(auth_type, username, password)`, defined outside
`src/`) builds an authenticated transport from an auth scheme and basic
credentials; we record exactly its three arguments. -/
structure Transport where
  auth_type : String
  username : String
  password : String
deriving DecidableEq

/-- Keyword arguments assembled by `create_soap_client` for the external
`Client(url, **kwargs)` call: `autoblend` always, `transport` when a
truthy username was given, `doctor` when the import list is non-empty. -/
structure ClientKwargs where
  autoblend : Bool
  transport : Option Transport := none
  doctor : Option (List WsdlImport) := none
deriving DecidableEq

/-- Python exception outcomes relevant to this file. -/
inductive PyErr where
  | runtimeError : String → PyErr
  | indexError : PyErr
  | ioError : String → PyErr
  | external : String → PyErr
deriving DecidableEq

/-- Observable external effect: a `Client(url, **kwargs)` construction
(the only operation of this file that can touch the network). -/
inductive Event where
  | clientConstructed : String → ClientKwargs → Event
deriving DecidableEq

/-- Modelled from the spec: the connection registry.  `connections` is the
ordered slot list (`_connections`); a slot is `none` when it holds the
no-connection sentinel.  `aliases` binds alias strings to 1-based indices;
`current` is the active handle (`none` when no connection is current). -/
structure CacheState (α : Type) where
  connections : List (Option α)
  aliases : List (String × Nat)
  current : Option α
deriving DecidableEq

/-- Whole-library state: the registry plus the transient import list. -/
structure LibState (α : Type) where
  cache : CacheState α
  imports : List WsdlImport
deriving DecidableEq

/-- External collaborators of `create_soap_client`: filesystem probe
(`os.path.isfile`), path-to-URL conversion (`pathname2url`) and the suds
`Client` factory, which may fail (bad WSDL, transport errors, ...). -/
structure Env (α : Type) where
  fileExists : String → Bool
  pathname2url : String → String
  newClient : String → ClientKwargs → Except PyErr α

/-- Argument of `switch_soap_client` / index resolution: either an integer
index or a string (alias, or a string spelling an integer). -/
inductive Key where
  | idx : Int → Key
  | str : String → Key
deriving DecidableEq

/-- Modelled from the spec: the fresh/emptied registry. -/
def empty_cache {α : Type} : CacheState α :=
  { connections := [], aliases := [], current := none }

/-- Modelled from the spec: `register(handle, alias?) -> index` appends the
handle, assigns the next sequential 1-based index, binds the optional
alias to that index (latest binding wins on lookup) and makes the new
handle current. -/
def register {α : Type} (st : CacheState α) (c : α) (aliasName : Option String) :
    CacheState α × Nat :=
  let conns := st.connections ++ [some c]
  let index := conns.length
  let aliases :=
    match aliasName with
    | some s => (s, index) :: st.aliases
    | none => st.aliases
  ({ connections := conns, aliases := aliases, current := some c }, index)

/-- Modelled from the spec: `current_index` is the 1-based position of the
current handle, or `none` when no connection is current. -/
def current_index {α : Type} [DecidableEq α] (st : CacheState α) : Option Nat :=
  match st.current with
  | none => none
  | some c => ((st.connections.findIdx? (fun slot => slot = some c)).map (fun i => i + 1))

/-- Text form of a key, used in the lookup-failure message. -/
def keyText : Key → String
  | .idx i => toString i
  | .str s => s

/-- Modelled from the spec: alias resolution; only a string key bound in
the alias table resolves, to the index it was bound to. -/
def resolveAlias {α : Type} (st : CacheState α) : Key → Except Unit Nat
  | .str s =>
    match st.aliases.lookup s with
    | some i => .ok i
    | none => .error ()
  | .idx _ => .error ()

/-- Value of a digit string, accumulator style; `none` on a non-digit. -/
def digitsVal (acc : Nat) : List Char → Option Nat
  | [] => some acc
  | c :: cs => if c.isDigit then digitsVal (acc * 10 + (c.toNat - 48)) cs else none

/-- Integer reading of a string as Python's `int()` does: an optional sign
followed by at least one digit. -/
def parseInt (s : String) : Option Int :=
  match s.toList with
  | [] => none
  | '-' :: cs =>
    match cs with
    | [] => none
    | _ => (digitsVal 0 cs).map (fun n => -(n : Int))
  | '+' :: cs =>
    match cs with
    | [] => none
    | _ => (digitsVal 0 cs).map (fun n => (n : Int))
  | cs => (digitsVal 0 cs).map (fun n => (n : Int))

/-- Integer reading of a key (`int(index)` in the source's registry). -/
def keyInt : Key → Option Int
  | .idx i => some i
  | .str s => parseInt s

/-- Modelled from the spec: index resolution accepts an integer `i` with
`0 < i ≤ length` (indices are 1-based and contiguous). -/
def resolveIndex {α : Type} (st : CacheState α) (k : Key) : Except Unit Nat :=
  match keyInt k with
  | none => .error ()
  | some i =>
    if 0 < i ∧ i ≤ (st.connections.length : Int) then .ok i.toNat else .error ()

/-- Modelled from the spec: a key resolves first as an alias, then as an
index; otherwise the lookup fails naming the key. -/
def resolveAliasOrIndex {α : Type} (st : CacheState α) (k : Key) : Except String Nat :=
  match resolveAlias st k with
  | .ok i => .ok i
  | .error _ =>
    match resolveIndex st k with
    | .ok i => .ok i
    | .error _ => .error ("Non-existing index or alias '" ++ keyText k ++ "'.")

/-- Modelled from the spec: `get_connection` returns the slot at the
resolved 1-based index; a resolved index outside `1..length` (a stale
alias) fails as the source's list indexing does (`IndexError`). -/
def get_connection {α : Type} (st : CacheState α) (k : Key) : Except PyErr (Option α) :=
  match resolveAliasOrIndex st k with
  | .error msg => .error (.runtimeError msg)
  | .ok i =>
    if 1 ≤ i ∧ i ≤ st.connections.length then .ok (st.connections.getD (i - 1) none)
    else .error .indexError

/-- Modelled from the spec: `switch(index_or_alias)` sets `current` to the
matching slot; on lookup failure nothing is changed. -/
def switchCache {α : Type} (st : CacheState α) (k : Key) :
    Except PyErr Unit × CacheState α :=
  match get_connection st k with
  | .ok c => (.ok (), { st with current := c })
  | .error e => (.error e, st)

/-- Scheme character set of the stdlib URL parser: letters, digits and
`+`, `-`, `.`. -/
def isSchemeChar (c : Char) : Bool :=
  c.isAlphanum || c == '+' || c == '-' || c == '.'

/-- Characters before the first `:`, or `none` when there is no `:`. -/
def beforeColon : List Char → Option (List Char)
  | [] => none
  | c :: cs => if c = ':' then some [] else (beforeColon cs).map (fun l => c :: l)

/-- Scheme of a URL as `urlparse` extracts it: the text before the first
`:` when it is non-empty, starts with a letter and consists of scheme
characters; `""` otherwise. -/
def urlScheme (s : String) : String :=
  match beforeColon s.toList with
  | none => ""
  | some pre =>
    match pre with
    | [] => ""
    | c0 :: _ =>
      if c0.isAlpha && pre.all isSchemeChar then ⟨pre.map Char.toLower⟩ else ""

/-- `_get_url` from the source: a location whose parsed scheme is at most
one character long is a filesystem path; a missing file raises
`IOError("File '%s' not found.")`, an existing one is turned into a
`file:` URL; anything else is returned unchanged. -/
def get_url {α : Type} (env : Env α) (url_or_path : String) : Except PyErr String :=
  if (urlScheme url_or_path).length > 1 then
    .ok url_or_path
  else if env.fileExists url_or_path then
    .ok ("file:" ++ env.pathname2url url_or_path)
  else
    .error (.ioError ("File '" ++ url_or_path ++ "' not found."))

/-- Transport part of the kwargs built by `create_soap_client`: a truthy
(non-`None`, non-empty) username yields a transport built from the auth
scheme, the username and the password (defaulted to `""`). -/
def baseKwargs (ab : Bool) (un pw : Option String) (at0 : String) : ClientKwargs :=
  match un with
  | some u =>
    if u = "" then { autoblend := ab }
    else { autoblend := ab, transport := some ⟨at0, u, pw.getD ""⟩ }
  | none => { autoblend := ab }

/-- Full kwargs for `Client(url, **kwargs)`: the accumulated import list is
passed as a schema doctor exactly when it is non-empty. -/
def buildKwargs (imps : List WsdlImport) (ab : Bool) (un pw : Option String)
    (at0 : String) : ClientKwargs :=
  if imps = [] then baseKwargs ab un pw at0
  else { baseKwargs ab un pw at0 with doctor := some imps }

/-- `create_soap_client` from the source: resolve the URL (may raise
`IOError`), build the kwargs, call the external `Client` factory (may
raise), then `_add_client`: clear the import list and register the new
client (which becomes current), returning its index.  `set_options`,
logging and `_set_soap_timeout` act on the client and the logger only
and are not modelled.  The result is (returned value or exception,
state after the call, trace of external constructions). -/
def create_soap_client {α : Type} (env : Env α) (st : LibState α) (url_or_path : String)
    (aliasName : Option String) (autoblend : Bool) (username password : Option String)
    (auth_type : String) : Except PyErr Nat × LibState α × List Event :=
  match get_url env url_or_path with
  | .error e => (.error e, st, [])
  | .ok url =>
    match env.newClient url (buildKwargs st.imports autoblend username password auth_type) with
    | .error e =>
      (.error e, st,
       [Event.clientConstructed url (buildKwargs st.imports autoblend username password auth_type)])
    | .ok c =>
      (.ok (register st.cache c aliasName).2,
       ⟨(register st.cache c aliasName).1, []⟩,
       [Event.clientConstructed url (buildKwargs st.imports autoblend username password auth_type)])

/-- `switch_soap_client` from the source: delegates to the registry's
`switch`. -/
def switch_soap_client {α : Type} (st : LibState α) (k : Key) :
    Except PyErr Unit × LibState α :=
  ((switchCache st.cache k).1, { st with cache := (switchCache st.cache k).2 })

/-- `close_connection` from the source, line by line: read `current_index`
(raise `RuntimeError("No open connection.")` when `None`); overwrite the
slot at `index-1` and `current` with the sentinel; `pop()` the *last*
slot; then try to make the slot at index `index-1` current, swallowing
the `RuntimeError` of a failed lookup. -/
def close_connection {α : Type} [DecidableEq α] (st : CacheState α) :
    Except PyErr Unit × CacheState α :=
  match current_index st with
  | none => (.error (.runtimeError "No open connection."), st)
  | some index =>
    let st1 : CacheState α :=
      { st with connections := st.connections.set (index - 1) none, current := none }
    let st2 : CacheState α := { st1 with connections := st1.connections.dropLast }
    match get_connection st2 (.idx ((index : Int) - 1)) with
    | .ok c => (.ok (), { st2 with current := c })
    | .error (.runtimeError _) => (.ok (), st2)
    | .error e => (.error e, st2)

/-- `close_all_connections` from the source: `empty_cache` the registry
(the import list is untouched). -/
def close_all_connections {α : Type} (st : LibState α) : LibState α :=
  { st with cache := empty_cache }

/-- Decidable success test for a call result. -/
def isOkResult {α : Type} : Except PyErr α → Bool
  | .ok _ => true
  | .error _ => false

/-- Arguments of one `create_soap_client` call. -/
structure CreateArgs where
  url : String
  aliasName : Option String
  autoblend : Bool
  username : Option String
  password : Option String
  auth_type : String
deriving DecidableEq

/-- Run a sequence of `create_soap_client` calls, recording each call's
result together with the state after it. -/
def runCreates {α : Type} (env : Env α) :
    LibState α → List CreateArgs → List (Except PyErr Nat × LibState α)
  | _, [] => []
  | st, a :: rest =>
    let out := create_soap_client env st a.url a.aliasName a.autoblend a.username a.password a.auth_type
    (out.1, out.2.1) :: runCreates env out.2.1 rest

/-- Fresh library state over `Nat` handles, for concrete witnesses. -/
def stFresh : LibState Nat := ⟨empty_cache, []⟩

/-- Environment in which every location exists and client construction
always succeeds, returning handle `7`. -/
def envOk : Env Nat :=
  { fileExists := fun _ => true
    pathname2url := fun s => s
    newClient := fun _ _ => .ok 7 }

/-- Environment in which no file exists (URL resolution of any path-style
location fails). -/
def envNoFile : Env Nat :=
  { fileExists := fun _ => false
    pathname2url := fun s => s
    newClient := fun _ _ => .ok 7 }

/-- Environment in which client construction always fails. -/
def envBoom : Env Nat :=
  { fileExists := fun _ => true
    pathname2url := fun s => s
    newClient := fun _ _ => .error (.external "boom") }

/-- Two well-formed create calls against plain URLs. -/
def argsTwo : List CreateArgs :=
  [⟨"http://one.example/a?wsdl", none, false, none, none, "STANDARD"⟩,
   ⟨"http://two.example/b?wsdl", none, false, none, none, "STANDARD"⟩]

/-- Transport field of the assembled kwargs: determined by the username
(and then the password and auth scheme) alone. -/
theorem buildKwargs_transport (imps : List WsdlImport) (ab : Bool) (un pw : Option String)
    (at0 : String) :
    (buildKwargs imps ab un pw at0).transport = (baseKwargs ab un pw at0).transport := by
  unfold buildKwargs
  split <;> rfl

/-- Doctor field of the assembled kwargs: the import list exactly when it
is non-empty. -/
theorem buildKwargs_doctor (imps : List WsdlImport) (ab : Bool) (un pw : Option String)
    (at0 : String) :
    (buildKwargs imps ab un pw at0).doctor = (if imps = [] then none else some imps) := by
  unfold buildKwargs
  split
  · unfold baseKwargs
    cases un with
    | none => rfl
    | some u => dsimp only; split <;> rfl
  · rfl

/-- Any client-construction event of a `create_soap_client` call carries
exactly the kwargs assembled from that call's arguments and the import
list at entry. -/
theorem create_events_kwargs {α : Type} (env : Env α) (st : LibState α) (u : String)
    (a0 : Option String) (ab : Bool) (un pw : Option String) (at0 : String) :
    ∀ url kw, Event.clientConstructed url kw ∈ (create_soap_client env st u a0 ab un pw at0).2.2 →
      kw = buildKwargs st.imports ab un pw at0 := by
  intro url kw hmem
  unfold create_soap_client at hmem
  split at hmem
  · simp at hmem
  · split at hmem
    · simp only [List.mem_singleton, Event.clientConstructed.injEq] at hmem
      exact hmem.2
    · simp only [List.mem_singleton, Event.clientConstructed.injEq] at hmem
      exact hmem.2

/-- Anatomy of a successful `create_soap_client` call: the returned index
is one past the previous registry size, the registry grew by exactly the
new entry, the new entry is current, and the import list is cleared. -/
theorem create_ok_spec {α : Type} (env : Env α) (st : LibState α) (u : String)
    (a0 : Option String) (ab : Bool) (un pw : Option String) (at0 : String)
    (idx : Nat) (st2 : LibState α) (evs : List Event)
    (h : create_soap_client env st u a0 ab un pw at0 = (Except.ok idx, st2, evs)) :
    idx = st.cache.connections.length + 1 ∧
    st2.cache.connections.length = st.cache.connections.length + 1 ∧
    st2.cache.connections.getLast? = some st2.cache.current ∧
    st2.cache.current ≠ none ∧
    st2.imports = [] := by
  unfold create_soap_client at h
  split at h
  · simp at h
  · split at h
    · simp at h
    · rename_i url hurl c hc
      simp only [Prod.mk.injEq, Except.ok.injEq] at h
      obtain ⟨hidx, hst2, hevs⟩ := h
      subst hidx
      subst hst2
      refine ⟨?_, ?_, ?_, ?_, rfl⟩
      · simp [register]
      · simp [register]
      · simp [register, List.getLast?_concat]
      · simp [register]

/-- Claim C2: a path-style location (parsed URL scheme of length at most
one) naming a file that does not exist makes `create_soap_client` fail
with the file-not-found `IOError` before any SOAP client is constructed
and before any network access (empty event trace), leaving the state
untouched. -/
theorem create_soap_client_missing_file_errors_early {α : Type} (env : Env α)
    (st : LibState α) (u : String) (a0 : Option String) (ab : Bool)
    (un pw : Option String) (at0 : String)
    (h1 : (urlScheme u).length ≤ 1) (h2 : env.fileExists u = false) :
    create_soap_client env st u a0 ab un pw at0 =
      (Except.error (PyErr.ioError ("File '" ++ u ++ "' not found.")), st, []) := by
  have hg : get_url env u = Except.error (PyErr.ioError ("File '" ++ u ++ "' not found.")) := by
    unfold get_url
    rw [if_neg (by omega), if_neg (by simp [h2])]
  unfold create_soap_client
  rw [hg]

/-- Witness for C2: a relative WSDL path with no scheme and a filesystem
on which it does not exist. -/
theorem create_soap_client_missing_file_errors_early_witness :
    (urlScheme "wsdls/tracking.wsdl").length ≤ 1 ∧
    envNoFile.fileExists "wsdls/tracking.wsdl" = false ∧
    create_soap_client envNoFile stFresh "wsdls/tracking.wsdl" none false none none "STANDARD" =
      (Except.error (PyErr.ioError ("File '" ++ "wsdls/tracking.wsdl" ++ "' not found.")),
       stFresh, []) :=
  ⟨by decide, rfl,
   create_soap_client_missing_file_errors_early envNoFile stFresh "wsdls/tracking.wsdl"
     none false none none "STANDARD" (by decide) rfl⟩

/-- Claim C7: with no current connection, `close_connection` raises
`RuntimeError("No open connection.")` and leaves the registry exactly as
it was. -/
theorem close_connection_no_current_error {α : Type} [DecidableEq α] (st : CacheState α)
    (h : current_index st = none) :
    close_connection st = (Except.error (PyErr.runtimeError "No open connection."), st) := by
  unfold close_connection
  rw [h]

/-- Witness for C7: a registry holding one entry but no current
connection. -/
theorem close_connection_no_current_error_witness :
    current_index (⟨[some 5], [("a", 1)], none⟩ : CacheState Nat) = none ∧
    close_connection (⟨[some 5], [("a", 1)], none⟩ : CacheState Nat) =
      (Except.error (PyErr.runtimeError "No open connection."),
       (⟨[some 5], [("a", 1)], none⟩ : CacheState Nat)) :=
  ⟨rfl, close_connection_no_current_error (⟨[some 5], [("a", 1)], none⟩ : CacheState Nat) rfl⟩

/-- Claim C10: when `create_soap_client` ends in an exception (URL/path
resolution or external client construction), the registry and the import
list are exactly as before the call. -/
theorem create_soap_client_error_preserves_state {α : Type} (env : Env α) (st : LibState α)
    (u : String) (a0 : Option String) (ab : Bool) (un pw : Option String) (at0 : String)
    (e : PyErr) (st2 : LibState α) (evs : List Event)
    (h : create_soap_client env st u a0 ab un pw at0 = (Except.error e, st2, evs)) :
    st2 = st := by
  unfold create_soap_client at h
  split at h
  · simp only [Prod.mk.injEq] at h
    exact h.2.1.symm
  · split at h
    · simp only [Prod.mk.injEq] at h
      exact h.2.1.symm
    · simp at h

/-- Witness for C10: a failing client construction over a populated
registry leaves the state intact. -/
theorem create_soap_client_error_preserves_state_witness :
    create_soap_client envBoom
        (⟨⟨[some 9], [("a", 1)], some 9⟩, [⟨"n", "l"⟩]⟩ : LibState Nat)
        "http://one.example/a?wsdl" none false none none "STANDARD" =
      (Except.error (PyErr.external "boom"),
       (⟨⟨[some 9], [("a", 1)], some 9⟩, [⟨"n", "l"⟩]⟩ : LibState Nat),
       [Event.clientConstructed "http://one.example/a?wsdl"
          ⟨false, none, some [⟨"n", "l"⟩]⟩]) ∧
    (⟨⟨[some 9], [("a", 1)], some 9⟩, [⟨"n", "l"⟩]⟩ : LibState Nat) =
      (⟨⟨[some 9], [("a", 1)], some 9⟩, [⟨"n", "l"⟩]⟩ : LibState Nat) :=
  ⟨by decide,
   create_soap_client_error_preserves_state envBoom
     (⟨⟨[some 9], [("a", 1)], some 9⟩, [⟨"n", "l"⟩]⟩ : LibState Nat)
     "http://one.example/a?wsdl" none false none none "STANDARD"
     (PyErr.external "boom")
     (⟨⟨[some 9], [("a", 1)], some 9⟩, [⟨"n", "l"⟩]⟩ : LibState Nat)
     [Event.clientConstructed "http://one.example/a?wsdl" ⟨false, none, some [⟨"n", "l"⟩]⟩]
     (by decide)⟩

/-- Claim C1, evaluated at the failing input: registry `[1, 2, 3]` with
the entry at index 2 current.  `close_connection` replaces slot 2 with
the sentinel and pops client 3 from the end, leaving `[1, sentinel]` with
client 1 current: client 3 is destroyed, the later index is not compacted
(a sentinel hole remains at index 2), contradicting the claim's
remove-one-and-compact semantics, which would leave `[1, 3]`. -/
theorem close_connection_drops_last_entry :
    close_connection (⟨[some 1, some 2, some 3], [], some 2⟩ : CacheState Nat) =
      (Except.ok (), ⟨[some 1, none], [], some 1⟩) ∧
    some 3 ∈ (⟨[some 1, some 2, some 3], [], some 2⟩ : CacheState Nat).connections ∧
    some 3 ∉ ((close_connection
      (⟨[some 1, some 2, some 3], [], some 2⟩ : CacheState Nat)).2).connections ∧
    none ∈ ((close_connection
      (⟨[some 1, some 2, some 3], [], some 2⟩ : CacheState Nat)).2).connections := by
  decide

/-- Claim C6: a (truthy) username makes `create_soap_client` pass an
authenticated transport built from the auth scheme, the username and the
password (defaulted to the empty string) to client construction; an
omitted username makes it pass no transport. -/
theorem create_soap_client_transport_from_credentials {α : Type} (env : Env α)
    (st : LibState α) (u : String) (a0 : Option String) (ab : Bool)
    (un pw : Option String) (at0 : String) :
    (∀ v, un = some v → v ≠ "" →
      ∀ url kw, Event.clientConstructed url kw ∈ (create_soap_client env st u a0 ab un pw at0).2.2 →
        kw.transport = some ⟨at0, v, pw.getD ""⟩) ∧
    (un = none →
      ∀ url kw, Event.clientConstructed url kw ∈ (create_soap_client env st u a0 ab un pw at0).2.2 →
        kw.transport = none) := by
  constructor
  · intro v hv hne url kw hmem
    rw [create_events_kwargs env st u a0 ab un pw at0 url kw hmem, buildKwargs_transport]
    subst hv
    simp [baseKwargs, hne]
  · intro hn url kw hmem
    rw [create_events_kwargs env st u a0 ab un pw at0 url kw hmem, buildKwargs_transport]
    subst hn
    rfl

/-- Witness for C6: username `bob`, password `pw`, standard auth. -/
theorem create_soap_client_transport_from_credentials_witness :
    Event.clientConstructed "http://one.example/a?wsdl"
        ⟨false, some ⟨"STANDARD", "bob", "pw"⟩, none⟩ ∈
      (create_soap_client envOk stFresh "http://one.example/a?wsdl" none false
        (some "bob") (some "pw") "STANDARD").2.2 ∧
    (⟨false, some ⟨"STANDARD", "bob", "pw"⟩, none⟩ : ClientKwargs).transport =
      some ⟨"STANDARD", "bob", "pw"⟩ :=
  ⟨by decide,
   (create_soap_client_transport_from_credentials envOk stFresh "http://one.example/a?wsdl"
      none false (some "bob") (some "pw") "STANDARD").1 "bob" rfl (by decide)
     "http://one.example/a?wsdl" ⟨false, some ⟨"STANDARD", "bob", "pw"⟩, none⟩ (by decide)⟩

/-- Claim C9: an empty-string username builds no transport (the password
is ignored) and the whole call behaves exactly as with the username
omitted. -/
theorem create_soap_client_empty_username {α : Type} (env : Env α) (st : LibState α)
    (u : String) (a0 : Option String) (ab : Bool) (pw pw2 : Option String) (at0 : String) :
    create_soap_client env st u a0 ab (some "") pw at0 =
      create_soap_client env st u a0 ab none pw2 at0 ∧
    (∀ url kw, Event.clientConstructed url kw ∈
        (create_soap_client env st u a0 ab (some "") pw at0).2.2 →
      kw.transport = none) := by
  have hkw : buildKwargs st.imports ab (some "") pw at0 = buildKwargs st.imports ab none pw2 at0 := by
    unfold buildKwargs baseKwargs
    simp
  constructor
  · unfold create_soap_client
    rw [hkw]
  · intro url kw hmem
    rw [create_events_kwargs env st u a0 ab (some "") pw at0 url kw hmem, buildKwargs_transport]
    rfl

/-- Witness for C9: empty username with a password present equals an
omitted username, and no transport is constructed. -/
theorem create_soap_client_empty_username_witness :
    create_soap_client envOk stFresh "http://one.example/a?wsdl" none false
        (some "") (some "pw") "STANDARD" =
      create_soap_client envOk stFresh "http://one.example/a?wsdl" none false
        none none "STANDARD" ∧
    (⟨false, none, none⟩ : ClientKwargs).transport = none :=
  ⟨(create_soap_client_empty_username envOk stFresh "http://one.example/a?wsdl" none false
      (some "pw") none "STANDARD").1,
   (create_soap_client_empty_username envOk stFresh "http://one.example/a?wsdl" none false
      (some "pw") none "STANDARD").2 "http://one.example/a?wsdl"
     ⟨false, none, none⟩ (by decide)⟩

/-- Claim C8: a successful `create_soap_client` call issues exactly one
client construction, whose kwargs carry the accumulated import list as a
schema doctor exactly when that list is non-empty, and the import list is
empty in the state after the call. -/
theorem create_soap_client_imports_consumed {α : Type} (env : Env α) (st : LibState α)
    (u : String) (a0 : Option String) (ab : Bool) (un pw : Option String) (at0 : String)
    (idx : Nat) (st2 : LibState α) (evs : List Event)
    (h : create_soap_client env st u a0 ab un pw at0 = (Except.ok idx, st2, evs)) :
    st2.imports = [] ∧
    ∃ url kw, evs = [Event.clientConstructed url kw] ∧
      kw.doctor = (if st.imports = [] then none else some st.imports) := by
  unfold create_soap_client at h
  cases hg : get_url env u with
  | error e2 => rw [hg] at h; simp at h
  | ok url =>
    rw [hg] at h
    dsimp only at h
    cases hc : env.newClient url (buildKwargs st.imports ab un pw at0) with
    | error e2 => rw [hc] at h; simp at h
    | ok c =>
      rw [hc] at h
      simp only [Prod.mk.injEq, Except.ok.injEq] at h
      obtain ⟨hidx, hst2, hevs⟩ := h
      subst hst2
      refine ⟨rfl, url, buildKwargs st.imports ab un pw at0, hevs.symm, ?_⟩
      exact buildKwargs_doctor st.imports ab un pw at0

/-- Witness for C8: a pending import descriptor is passed as the doctor
and cleared by the call. -/
theorem create_soap_client_imports_consumed_witness :
    create_soap_client envOk (⟨empty_cache, [⟨"nsA", "locA"⟩]⟩ : LibState Nat)
        "http://one.example/a?wsdl" none false none none "STANDARD" =
      (Except.ok 1, (⟨⟨[some 7], [], some 7⟩, []⟩ : LibState Nat),
       [Event.clientConstructed "http://one.example/a?wsdl"
          ⟨false, none, some [⟨"nsA", "locA"⟩]⟩]) ∧
    ((⟨⟨[some 7], [], some 7⟩, []⟩ : LibState Nat).imports = [] ∧
      ∃ url kw,
        [Event.clientConstructed "http://one.example/a?wsdl"
           ⟨false, none, some [⟨"nsA", "locA"⟩]⟩] = [Event.clientConstructed url kw] ∧
        kw.doctor = (if (⟨empty_cache, [⟨"nsA", "locA"⟩]⟩ : LibState Nat).imports = []
          then none else some (⟨empty_cache, [⟨"nsA", "locA"⟩]⟩ : LibState Nat).imports)) :=
  ⟨by decide,
   create_soap_client_imports_consumed envOk (⟨empty_cache, [⟨"nsA", "locA"⟩]⟩ : LibState Nat)
     "http://one.example/a?wsdl" none false none none "STANDARD" 1
     (⟨⟨[some 7], [], some 7⟩, []⟩ : LibState Nat)
     [Event.clientConstructed "http://one.example/a?wsdl" ⟨false, none, some [⟨"nsA", "locA"⟩]⟩]
     (by decide)⟩

/-- Claim C4: `switch_soap_client` with a key resolving to an in-range
index makes the slot at that index current and changes neither the slot
list nor the aliases; a key with no in-range resolution (unknown alias
and out-of-range or non-numeric index, or a stale alias) fails with a
lookup error and changes nothing. -/
theorem switch_soap_client_lookup {α : Type} (st : LibState α) (k : Key) :
    (∀ i, resolveAliasOrIndex st.cache k = Except.ok i → 1 ≤ i →
      i ≤ st.cache.connections.length →
      switch_soap_client st k =
        (Except.ok (),
         { st with cache := { st.cache with current := st.cache.connections.getD (i - 1) none } })) ∧
    ((∀ i, resolveAliasOrIndex st.cache k = Except.ok i →
        ¬(1 ≤ i ∧ i ≤ st.cache.connections.length)) →
      ∃ e, switch_soap_client st k = (Except.error e, st)) := by
  constructor
  · intro i hi h1 h2
    unfold switch_soap_client switchCache get_connection
    rw [hi]
    dsimp only
    rw [if_pos (⟨h1, h2⟩ : 1 ≤ i ∧ i ≤ st.cache.connections.length)]
  · intro hall
    unfold switch_soap_client switchCache get_connection
    cases hr : resolveAliasOrIndex st.cache k with
    | error msg =>
      exact ⟨PyErr.runtimeError msg, rfl⟩
    | ok i =>
      refine ⟨PyErr.indexError, ?_⟩
      dsimp only
      rw [if_neg (hall i hr)]

/-- Witness for C4: switching by a bound alias selects its entry and
leaves the rest of the registry unchanged. -/
theorem switch_soap_client_lookup_witness :
    resolveAliasOrIndex
        (⟨⟨[some 10, some 20], [("billing", 2)], some 10⟩, []⟩ : LibState Nat).cache
        (Key.str "billing") = Except.ok 2 ∧
    switch_soap_client (⟨⟨[some 10, some 20], [("billing", 2)], some 10⟩, []⟩ : LibState Nat)
        (Key.str "billing") =
      (Except.ok (),
       (⟨⟨[some 10, some 20], [("billing", 2)], some 20⟩, []⟩ : LibState Nat)) :=
  ⟨by decide,
   (switch_soap_client_lookup
      (⟨⟨[some 10, some 20], [("billing", 2)], some 10⟩, []⟩ : LibState Nat)
      (Key.str "billing")).1 2 (by decide) (by decide) (by decide)⟩

/-- Claim C5: `close_all_connections` empties the registry (no current
connection remains) and any next successful `create_soap_client` returns
index 1. -/
theorem close_all_connections_resets {α : Type} (st : LibState α) (env : Env α)
    (u : String) (a0 : Option String) (ab : Bool) (un pw : Option String) (at0 : String) :
    (close_all_connections st).cache = empty_cache ∧
    (close_all_connections st).cache.current = none ∧
    (∀ idx st2 evs,
      create_soap_client env (close_all_connections st) u a0 ab un pw at0 =
        (Except.ok idx, st2, evs) → idx = 1) := by
  refine ⟨rfl, rfl, ?_⟩
  intro idx st2 evs h
  have h1 := (create_ok_spec env (close_all_connections st) u a0 ab un pw at0 idx st2 evs h).1
  simpa [close_all_connections, empty_cache] using h1

/-- Witness for C5: after closing everything over a populated registry, a
new create call returns index 1. -/
theorem close_all_connections_resets_witness :
    (close_all_connections (⟨⟨[some 3, some 4], [("x", 1)], some 4⟩, []⟩ : LibState Nat)).cache =
      empty_cache ∧
    create_soap_client envOk
        (close_all_connections (⟨⟨[some 3, some 4], [("x", 1)], some 4⟩, []⟩ : LibState Nat))
        "http://one.example/a?wsdl" none false none none "STANDARD" =
      (Except.ok 1, (⟨⟨[some 7], [], some 7⟩, []⟩ : LibState Nat),
       [Event.clientConstructed "http://one.example/a?wsdl" ⟨false, none, none⟩]) ∧
    (1 : Nat) = 1 :=
  ⟨by decide, by decide,
   (close_all_connections_resets (⟨⟨[some 3, some 4], [("x", 1)], some 4⟩, []⟩ : LibState Nat)
      envOk "http://one.example/a?wsdl" none false none none "STANDARD").2.2 1
     (⟨⟨[some 7], [], some 7⟩, []⟩ : LibState Nat)
     [Event.clientConstructed "http://one.example/a?wsdl" ⟨false, none, none⟩] (by decide)⟩

/-- Invariant of a run of successful `create_soap_client` calls starting
from any state: the `i`-th call returns index `n + i + 1` where `n` is the
starting registry size, the registry after it holds `n + i + 1` entries,
and its last (newly registered) entry is the current one. -/
theorem runCreates_ok_spec {α : Type} (env : Env α) :
    ∀ (args : List CreateArgs) (st : LibState α),
      (∀ q ∈ runCreates env st args, isOkResult q.1 = true) →
      ∀ i p, (runCreates env st args).get? i = some p →
        p.1 = Except.ok (st.cache.connections.length + (i + 1)) ∧
        p.2.cache.connections.length = st.cache.connections.length + (i + 1) ∧
        p.2.cache.connections.getLast? = some p.2.cache.current ∧
        p.2.cache.current ≠ none := by
  intro args
  induction args with
  | nil =>
    intro st hok i p hp
    simp [runCreates] at hp
  | cons a rest ih =>
    intro st hok i p hp
    have hcons : runCreates env st (a :: rest) =
        ((create_soap_client env st a.url a.aliasName a.autoblend a.username a.password a.auth_type).1,
         (create_soap_client env st a.url a.aliasName a.autoblend a.username a.password a.auth_type).2.1) ::
        runCreates env
          (create_soap_client env st a.url a.aliasName a.autoblend a.username a.password a.auth_type).2.1
          rest := rfl
    have hok1 : isOkResult
        (create_soap_client env st a.url a.aliasName a.autoblend a.username a.password a.auth_type).1 = true := by
      have hmem : ((create_soap_client env st a.url a.aliasName a.autoblend a.username a.password a.auth_type).1,
          (create_soap_client env st a.url a.aliasName a.autoblend a.username a.password a.auth_type).2.1)
          ∈ runCreates env st (a :: rest) := by
        rw [hcons]
        exact List.mem_cons_self _ _
      exact hok _ hmem
    cases hres : (create_soap_client env st a.url a.aliasName a.autoblend a.username a.password a.auth_type).1 with
    | error e =>
      rw [hres] at hok1
      simp [isOkResult] at hok1
    | ok idx =>
      have heq : create_soap_client env st a.url a.aliasName a.autoblend a.username a.password a.auth_type =
          (Except.ok idx,
           (create_soap_client env st a.url a.aliasName a.autoblend a.username a.password a.auth_type).2.1,
           (create_soap_client env st a.url a.aliasName a.autoblend a.username a.password a.auth_type).2.2) := by
        rw [← hres]
      obtain ⟨hidx, hlen2, hlast2, hcur2, himp2⟩ :=
        create_ok_spec env st a.url a.aliasName a.autoblend a.username a.password a.auth_type idx
          (create_soap_client env st a.url a.aliasName a.autoblend a.username a.password a.auth_type).2.1
          (create_soap_client env st a.url a.aliasName a.autoblend a.username a.password a.auth_type).2.2
          heq
      cases i with
      | zero =>
        rw [hcons, List.get?_cons_zero] at hp
        obtain rfl : _ = p := Option.some.inj hp
        refine ⟨?_, ?_, hlast2, hcur2⟩
        · rw [hres, hidx]
        · exact hlen2
      | succ j =>
        rw [hcons, List.get?_cons_succ] at hp
        have hokrest : ∀ q ∈ runCreates env
            (create_soap_client env st a.url a.aliasName a.autoblend a.username a.password a.auth_type).2.1
            rest, isOkResult q.1 = true := by
          intro q hq
          refine hok q ?_
          rw [hcons]
          exact List.mem_cons_of_mem _ hq
        obtain ⟨ih1, ih2, ih3, ih4⟩ := ih
          (create_soap_client env st a.url a.aliasName a.autoblend a.username a.password a.auth_type).2.1
          hokrest j p hp
        rw [hlen2] at ih1 ih2
        refine ⟨?_, ?_, ih3, ih4⟩
        · rw [ih1]
          have harith : st.cache.connections.length + 1 + (j + 1) =
              st.cache.connections.length + (j + 1 + 1) := by omega
          rw [harith]
        · rw [ih2]
          omega

/-- Claim C3: starting from a fresh (or freshly emptied) registry, a run
of `N` successful `create_soap_client` calls returns exactly the indices
`1..N` in order, and after each call the registry's newly appended entry
(the just-registered client) is the current one. -/
theorem create_soap_client_sequential_indices {α : Type} (env : Env α) (st : LibState α)
    (args : List CreateArgs) (hfresh : st.cache = empty_cache)
    (hok : ∀ q ∈ runCreates env st args, isOkResult q.1 = true)
    (i : Nat) (p : Except PyErr Nat × LibState α)
    (hp : (runCreates env st args).get? i = some p) :
    p.1 = Except.ok (i + 1) ∧
    p.2.cache.connections.length = i + 1 ∧
    p.2.cache.connections.getLast? = some p.2.cache.current ∧
    p.2.cache.current ≠ none := by
  have h0 : st.cache.connections.length = 0 := by rw [hfresh]; rfl
  have hmain := runCreates_ok_spec env args st hok i p hp
  rw [h0] at hmain
  simpa using hmain

/-- Witness for C3: two successful creates from the fresh registry; the
second trace entry returns index 2 and its registry has the new client
current. -/
theorem create_soap_client_sequential_indices_witness :
    (∀ q ∈ runCreates envOk stFresh argsTwo, isOkResult q.1 = true) ∧
    ((Except.ok 2 : Except PyErr Nat),
      (⟨⟨[some 7, some 7], [], some 7⟩, []⟩ : LibState Nat)).1 = Except.ok 2 ∧
    ((Except.ok 2 : Except PyErr Nat),
      (⟨⟨[some 7, some 7], [], some 7⟩, []⟩ : LibState Nat)).2.cache.connections.length = 2 ∧
    ((Except.ok 2 : Except PyErr Nat),
      (⟨⟨[some 7, some 7], [], some 7⟩, []⟩ : LibState Nat)).2.cache.connections.getLast? =
      some ((Except.ok 2 : Except PyErr Nat),
        (⟨⟨[some 7, some 7], [], some 7⟩, []⟩ : LibState Nat)).2.cache.current ∧
    ((Except.ok 2 : Except PyErr Nat),
      (⟨⟨[some 7, some 7], [], some 7⟩, []⟩ : LibState Nat)).2.cache.current ≠ none :=
  ⟨by decide,
   create_soap_client_sequential_indices envOk stFresh argsTwo rfl (by decide) 1
     ((Except.ok 2 : Except PyErr Nat), (⟨⟨[some 7, some 7], [], some 7⟩, []⟩ : LibState Nat))
     (by decide)⟩

end Suds2Library
